import Mathlib

/-!
Shallow embedding of `src/authpy/authpy.py` (oci-authpy): the strategy
dispatcher `Authpy.create_signer`, its five strategy handlers, the
`AuthException` error type and the convenience function `make_signer`.

External collaborators (the `oci` SDK: `from_file`,
`get_config_value_or_default`, `Signer`, the `signers.*` factories, `os.getenv`
and `open(...).read()`) are modelled as an environment oracle `Env`; every
observable interaction with the outside world is additionally recorded in a
trace of `Event`s so that claims about "no I/O" and "constructed with exactly
these arguments" can be stated.

Python exceptions are modelled by the inductive `Exc`; `try/except KeyError`
and `try/except Exception` become matches on the `Except` result, following
the source line by line.
-/

/-- A Python exception value, restricted to the shapes this program can
produce or observe: `KeyError` (raised by `dict[key]` lookups and caught by
`create_signer`), `AuthException` (the program's own error type, constructed
either from a string or from a wrapped exception object), and any other
exception coming out of the external `oci` library. -/
inductive Exc where
  | keyError (key : String)
  | authExceptionStr (msg : String)
  | authExceptionExc (cause : Exc)
  | otherError (msg : String)
deriving DecidableEq, Repr

/-- Python `str(e)` for the exceptions above: `str(KeyError('k'))` is `"'k'"`,
`AuthException.__str__` is `f'AuthException: {self.error}'`, and a generic
exception prints its message. -/
def Exc.toStr : Exc → String
  | .keyError k => "'" ++ k ++ "'"
  | .authExceptionStr m => "AuthException: " ++ m
  | .authExceptionExc c => "AuthException: " ++ c.toStr
  | .otherError m => m

/-- Whether an exception value is an `AuthException` (the program's
`AuthError`). -/
def Exc.isAuthException : Exc → Bool
  | .authExceptionStr _ => true
  | .authExceptionExc _ => true
  | _ => false

/-- Whether an exception value is a `KeyError`. -/
def Exc.isKeyError : Exc → Bool
  | .keyError _ => true
  | _ => false

/-- A parsed configuration section: an ordered string-to-string mapping, as
returned by `oci.config.from_file`. -/
def Config := List (String × String)
deriving DecidableEq, Repr

/-- Python `config[key]`: first value bound to `key`, if any (`dict.get`). -/
def Config.get (c : Config) (k : String) : Option String :=
  (List.find? (fun kv => kv.1 = k) c).map (fun kv => kv.2)

/-- The keyword arguments passed to the `oci.Signer(...)` constructor by
`create_profile_signer`. -/
structure SignerArgs where
  tenancy : String
  user : String
  fingerprint : String
  private_key_file_location : Option String
  pass_phrase : Option String
  private_key_content : Option String
deriving DecidableEq, Repr

/-- An opaque signing capability. The program only ever reads `region` and
`tenancy_id` off it; `tag` distinguishes distinct capability objects. -/
structure Signer where
  region : String
  tenancy_id : String
  tag : String
deriving DecidableEq, Repr

/-- One observable interaction with the outside world, recorded in order. -/
inductive Event where
  | fromFileCall (location : String) (profile : String)
  | openFile (path : String)
  | mkSignerCall (args : SignerArgs)
  | instancePrincipalCall
  | delegationSignerCall (token : String)
  | workloadCall
  | resourceCall
deriving DecidableEq, Repr

/-- Result of a handler or of `create_signer`: the Python return value or the
escaping exception, together with the trace of external interactions that
happened during the call. -/
def PyResult (α : Type) := Except Exc α × List Event

/-- The environment oracle: fixed behaviour of `os.getenv`, of the filesystem
and of every `oci` library primitive the program calls. -/
structure Env where
  getenv : String → Option String
  fromFileResult : String → String → Except Exc Config
  get_config_value_or_default : Config → String → Option String
  mkSignerResult : SignerArgs → Except Exc Signer
  instancePrincipalSigner : Except Exc Signer
  delegationTokenSigner : String → Except Exc Signer
  workloadSigner : Except Exc Signer
  resourceSigner : Except Exc Signer
  readFileResult : String → Except Exc String

/-- Python truthiness of an optional environment-variable value: `None` and
the empty string are falsy (`not env_config_file`). -/
def truthy : Option String → Bool
  | none => false
  | some s => s ≠ ""

/-- Python `str.strip()` whitespace set (ASCII): space, tab, newline,
carriage return, vertical tab, form feed. -/
def pyIsSpace (c : Char) : Bool :=
  c = ' ' || c = '\t' || c = '\n' || c = '\r' || c = Char.ofNat 11 || c = Char.ofNat 12

/-- Python `str.strip()`: remove leading and trailing whitespace. -/
def pyStrip (s : String) : String :=
  String.mk (((s.toList.dropWhile pyIsSpace).reverse.dropWhile pyIsSpace).reverse)

/-- Module-level constant `AUTH_PROFILE = 'profile'`. -/
def AUTH_PROFILE : String := "profile"

/-- Module-level constant `AUTH_INSTANCE_PRINCIPAL = 'instance_principal'`. -/
def AUTH_INSTANCE_PRINCIPAL : String := "instance_principal"

/-- Module-level constant `AUTH_RESOURCE_PRINCIPAL = 'resource_principal'`. -/
def AUTH_RESOURCE_PRINCIPAL : String := "resource_principal"

/-- Module-level constant `AUTH_WORKLOAD_PRINCIPAL = 'workload_principal'`. -/
def AUTH_WORKLOAD_PRINCIPAL : String := "workload_principal"

/-- Module-level constant `AUTH_DELEGATION_TOKEN = 'delegation_token'`. -/
def AUTH_DELEGATION_TOKEN : String := "delegation_token"

/-- The external default `oci.config.DEFAULT_PROFILE`. -/
def DEFAULT_PROFILE : String := "DEFAULT"

/-- The external default `oci.config.DEFAULT_LOCATION`. -/
def DEFAULT_LOCATION : String := "~/.oci/config"

/-- `Authpy.create_profile_signer`: parse the configured section with
`from_file`, build an `oci.Signer` from its fields, return `(config, signer)`.
No `try/except` of its own: `from_file` errors, `config[...]` `KeyError`s and
`Signer(...)` errors all escape unchanged. -/
def create_profile_signer (env : Env) (profile location : String) :
    PyResult (Config × Signer) :=
  match env.fromFileResult location profile with
  | .error e => (.error e, [.fromFileCall location profile])
  | .ok config =>
    match config.get "tenancy" with
    | none => (.error (.keyError "tenancy"), [.fromFileCall location profile])
    | some tenancy =>
      match config.get "user" with
      | none => (.error (.keyError "user"), [.fromFileCall location profile])
      | some user =>
        match config.get "fingerprint" with
        | none => (.error (.keyError "fingerprint"), [.fromFileCall location profile])
        | some fingerprint =>
          let args : SignerArgs :=
            { tenancy := tenancy
              user := user
              fingerprint := fingerprint
              private_key_file_location := config.get "key_file"
              pass_phrase := env.get_config_value_or_default config "pass_phrase"
              private_key_content := config.get "key_content" }
          match env.mkSignerResult args with
          | .error e =>
            (.error e, [.fromFileCall location profile, .mkSignerCall args])
          | .ok signer =>
            (.ok (config, signer),
              [.fromFileCall location profile, .mkSignerCall args])

/-- `Authpy.create_instance_principal_signer`: obtain the instance-principal
signer, return `({region, tenancy}, signer)`; `except Exception as e: raise
AuthException(e)` wraps any provider exception, keeping the exception object
as the argument. -/
def create_instance_principal_signer (env : Env) : PyResult (Config × Signer) :=
  match env.instancePrincipalSigner with
  | .error e => (.error (.authExceptionExc e), [.instancePrincipalCall])
  | .ok signer =>
    (.ok ([("region", signer.region), ("tenancy", signer.tenancy_id)], signer),
      [.instancePrincipalCall])

/-- `Authpy.create_delegation_token_signer`: read the two Cloud Shell
environment variables; if either is missing or empty, raise
`AuthException('Required environment variables for delgation not found')`
(note the source's spelling) before touching the filesystem; otherwise parse
the section, read the delegation-token file, strip its content and build the
delegation-token signer. The whole body sits in `try ... except Exception as
e: raise AuthException(str(e))`, so every escaping exception — including the
handler's own `AuthException` — is re-wrapped through `str(e)`. -/
def create_delegation_token_signer (env : Env) : PyResult (Config × Signer) :=
  let body : PyResult (Config × Signer) :=
    let env_config_file := env.getenv "OCI_CONFIG_FILE"
    let env_config_section := env.getenv "OCI_CONFIG_PROFILE"
    if !truthy env_config_file || !truthy env_config_section then
      (.error (.authExceptionStr "Required environment variables for delgation not found"), [])
    else
      let cf := env_config_file.getD ""
      let cs := env_config_section.getD ""
      match env.fromFileResult cf cs with
      | .error e => (.error e, [.fromFileCall cf cs])
      | .ok config =>
        match config.get "delegation_token_file" with
        | none =>
          (.error (.keyError "delegation_token_file"), [.fromFileCall cf cs])
        | some token_location =>
          match env.readFileResult token_location with
          | .error e => (.error e, [.fromFileCall cf cs, .openFile token_location])
          | .ok contents =>
            let delegation_token := pyStrip contents
            match env.delegationTokenSigner delegation_token with
            | .error e =>
              (.error e,
                [.fromFileCall cf cs, .openFile token_location,
                 .delegationSignerCall delegation_token])
            | .ok signer =>
              (.ok (config, signer),
                [.fromFileCall cf cs, .openFile token_location,
                 .delegationSignerCall delegation_token])
  match body with
  | (.error e, evs) => (.error (.authExceptionStr e.toStr), evs)
  | r => r

/-- `Authpy.create_workload_principal_signer`: obtain the OKE workload
identity signer, return `({region, tenancy}, signer)`; `except Exception as
e: raise AuthException(str(e))`. -/
def create_workload_principal_signer (env : Env) : PyResult (Config × Signer) :=
  match env.workloadSigner with
  | .error e => (.error (.authExceptionStr e.toStr), [.workloadCall])
  | .ok signer =>
    (.ok ([("region", signer.region), ("tenancy", signer.tenancy_id)], signer),
      [.workloadCall])

/-- `Authpy.create_resource_principal`: obtain the resource-principals
signer, return `({region, tenancy}, signer)`. No exception handling: a
provider error escapes as-is. -/
def create_resource_principal (env : Env) : PyResult (Config × Signer) :=
  match env.resourceSigner with
  | .error e => (.error e, [.resourceCall])
  | .ok signer =>
    (.ok ([("region", signer.region), ("tenancy", signer.tenancy_id)], signer),
      [.resourceCall])

/-- The dictionary `func` built in `create_signer`: strategy identifier to
bound handler method; `none` models the `KeyError` of a failed lookup. -/
def signer_func (auth_type : String) :
    Option (Env → String → String → PyResult (Config × Signer)) :=
  if auth_type = AUTH_PROFILE then
    some (fun env profile location => create_profile_signer env profile location)
  else if auth_type = AUTH_INSTANCE_PRINCIPAL then
    some (fun env _ _ => create_instance_principal_signer env)
  else if auth_type = AUTH_DELEGATION_TOKEN then
    some (fun env _ _ => create_delegation_token_signer env)
  else if auth_type = AUTH_WORKLOAD_PRINCIPAL then
    some (fun env _ _ => create_workload_principal_signer env)
  else if auth_type = AUTH_RESOURCE_PRINCIPAL then
    some (fun env _ _ => create_resource_principal env)
  else none

/-- `Authpy.create_signer`: look up the handler in the `func` dict and call
it, inside `try ... except KeyError: raise AuthException('Invalid
authentication type')`. The `except KeyError` therefore catches both the
failed dict lookup and any `KeyError` escaping from the called handler. -/
def create_signer (env : Env) (profile location auth_type : String) :
    PyResult (Config × Signer) :=
  match signer_func auth_type with
  | none => (.error (.authExceptionStr "Invalid authentication type"), [])
  | some f =>
    match f env profile location with
    | (.error (.keyError _), evs) =>
      (.error (.authExceptionStr "Invalid authentication type"), evs)
    | r => r

/-- `make_signer`: construct `Authpy(profile, location)` and dispatch; the
trailing `*args, **kwargs` are accepted and never read. -/
def make_signer (env : Env) (authentication_type profile location : String)
    (args : List String) (kwargs : List (String × String)) :
    PyResult (Config × Signer) :=
  create_signer env profile location authentication_type

/-! Concrete environments used as evaluation points. -/

/-- A signing capability instance used in tests. -/
def signerA : Signer := { region := "us-ashburn-1", tenancy_id := "ocid1.tenancy.a", tag := "instance" }

/-- A second signing capability instance. -/
def signerB : Signer := { region := "eu-frankfurt-1", tenancy_id := "ocid1.tenancy.b", tag := "workload" }

/-- A third signing capability instance. -/
def signerC : Signer := { region := "uk-london-1", tenancy_id := "ocid1.tenancy.c", tag := "resource" }

/-- A fourth signing capability instance. -/
def signerD : Signer := { region := "us-phoenix-1", tenancy_id := "t1", tag := "profile" }

/-- A fifth signing capability instance. -/
def signerE : Signer := { region := "sa-saopaulo-1", tenancy_id := "ocid1.tenancy.e", tag := "delegation" }

/-- Baseline environment: no environment variables set, every external
primitive fails with a generic (non-KeyError) library error. -/
def baseEnv : Env where
  getenv := fun _ => none
  fromFileResult := fun _ _ => .error (.otherError "no file")
  get_config_value_or_default := fun c k => c.get k
  mkSignerResult := fun _ => .error (.otherError "no signer")
  instancePrincipalSigner := .error (.otherError "no imds")
  delegationTokenSigner := fun _ => .error (.otherError "no token signer")
  workloadSigner := .error (.otherError "no oke")
  resourceSigner := .error (.otherError "no rp")
  readFileResult := fun _ => .error (.otherError "no read")

/-- Environment where the three ambient-principal providers succeed. -/
def envPrincipals : Env :=
  { baseEnv with
    instancePrincipalSigner := .ok signerA
    workloadSigner := .ok signerB
    resourceSigner := .ok signerC }

/-- Environment whose config file parses to a section missing the
`tenancy` key. -/
def envMissingTenancy : Env :=
  { baseEnv with fromFileResult := fun _ _ => .ok [("user", "u1")] }

/-- Environment whose resource-principals provider raises a `KeyError`. -/
def envResourceKeyError : Env :=
  { baseEnv with resourceSigner := .error (.keyError "boom") }

/-- The profile section of claim C4. -/
def sectionC4 : Config :=
  [("tenancy", "t1"), ("user", "u1"), ("fingerprint", "f1"), ("key_file", "/path/key.pem")]

/-- The `Signer(...)` arguments `create_profile_signer` builds from
`sectionC4`. -/
def argsC4 (env : Env) : SignerArgs :=
  { tenancy := "t1"
    user := "u1"
    fingerprint := "f1"
    private_key_file_location := some "/path/key.pem"
    pass_phrase := env.get_config_value_or_default sectionC4 "pass_phrase"
    private_key_content := none }

/-- Environment where profile parsing yields `sectionC4` and signer
construction succeeds. -/
def envProfileOk : Env :=
  { baseEnv with
    fromFileResult := fun _ _ => .ok sectionC4
    mkSignerResult := fun _ => .ok signerD }

/-- The parsed Cloud Shell section used for the delegation-token tests. -/
def sectionShell : Config := [("delegation_token_file", "/tok")]

/-- Environment where the delegation-token flow succeeds end to end, with a
token file containing `"  abc123\n"`. -/
def envShell : Env :=
  { baseEnv with
    getenv := fun n =>
      if n = "OCI_CONFIG_FILE" then some "/cfg"
      else if n = "OCI_CONFIG_PROFILE" then some "SHELL" else none
    fromFileResult := fun _ _ => .ok sectionShell
    readFileResult := fun _ => .ok "  abc123\n"
    delegationTokenSigner := fun t =>
      if t = "abc123" then .ok signerE else .error (.otherError "bad token") }

/-! The claims. -/

/-- C1: for every strategy identifier outside the registry's five known
values, `create_signer` fails with `AuthException` whose message is
`"Invalid authentication type"`, with an empty interaction trace: no file is
opened, no provider primitive is invoked, no partial work occurs. -/
theorem create_signer_unknown_strategy (env : Env) (profile location auth_type : String)
    (h : auth_type ∉ [AUTH_PROFILE, AUTH_INSTANCE_PRINCIPAL, AUTH_DELEGATION_TOKEN,
      AUTH_WORKLOAD_PRINCIPAL, AUTH_RESOURCE_PRINCIPAL]) :
    create_signer env profile location auth_type =
      (.error (.authExceptionStr "Invalid authentication type"), []) := by
  simp only [List.mem_cons, List.not_mem_nil, or_false, not_or] at h
  obtain ⟨h1, h2, h3, h4, h5⟩ := h
  simp [create_signer, signer_func, h1, h2, h3, h4, h5]

/-- Witness for C1 at the concrete unknown identifier `"basic"`. -/
theorem create_signer_unknown_strategy_witness :
    create_signer baseEnv "DEFAULT" "~/.oci/config" "basic" =
      (.error (.authExceptionStr "Invalid authentication type"), []) :=
  create_signer_unknown_strategy baseEnv "DEFAULT" "~/.oci/config" "basic" (by decide)

/-- C7: for each of the InstancePrincipal, WorkloadPrincipal and
ResourcePrincipal strategies, on provider success the returned ConfigMap is
exactly `[("region", r), ("tenancy", t)]` where `r` and `t` are read off the
constructed capability itself, and the capability is returned unchanged. -/
theorem principal_config_region_tenancy (env : Env) (profile location : String)
    (s1 s2 s3 : Signer)
    (h1 : env.instancePrincipalSigner = .ok s1)
    (h2 : env.workloadSigner = .ok s2)
    (h3 : env.resourceSigner = .ok s3) :
    create_signer env profile location AUTH_INSTANCE_PRINCIPAL =
      (.ok ([("region", s1.region), ("tenancy", s1.tenancy_id)], s1), [.instancePrincipalCall]) ∧
    create_signer env profile location AUTH_WORKLOAD_PRINCIPAL =
      (.ok ([("region", s2.region), ("tenancy", s2.tenancy_id)], s2), [.workloadCall]) ∧
    create_signer env profile location AUTH_RESOURCE_PRINCIPAL =
      (.ok ([("region", s3.region), ("tenancy", s3.tenancy_id)], s3), [.resourceCall]) := by
  refine ⟨?_, ?_, ?_⟩ <;>
    simp [create_signer, signer_func, create_instance_principal_signer,
      create_workload_principal_signer, create_resource_principal, h1, h2, h3,
      AUTH_PROFILE, AUTH_INSTANCE_PRINCIPAL, AUTH_DELEGATION_TOKEN,
      AUTH_WORKLOAD_PRINCIPAL, AUTH_RESOURCE_PRINCIPAL]

/-- Witness for C7 in `envPrincipals`. -/
theorem principal_config_region_tenancy_witness :
    create_signer envPrincipals "p" "l" AUTH_INSTANCE_PRINCIPAL =
      (.ok ([("region", signerA.region), ("tenancy", signerA.tenancy_id)], signerA),
        [.instancePrincipalCall]) ∧
    create_signer envPrincipals "p" "l" AUTH_WORKLOAD_PRINCIPAL =
      (.ok ([("region", signerB.region), ("tenancy", signerB.tenancy_id)], signerB),
        [.workloadCall]) ∧
    create_signer envPrincipals "p" "l" AUTH_RESOURCE_PRINCIPAL =
      (.ok ([("region", signerC.region), ("tenancy", signerC.tenancy_id)], signerC),
        [.resourceCall]) :=
  principal_config_region_tenancy envPrincipals "p" "l" signerA signerB signerC rfl rfl rfl

/-- C9: `make_signer strategy profile location` is definitionally the same
dispatch as constructing `Authpy profile location` and calling
`create_signer strategy`: same ConfigMap, same capability, same error, same
interaction trace, for every strategy, profile, location and environment. -/
theorem make_signer_round_trip (env : Env) (auth_type profile location : String) :
    make_signer env auth_type profile location [] [] =
      create_signer env profile location auth_type := rfl

/-- C10: `make_signer` ignores its extra positional and keyword arguments:
the result only depends on the strategy, profile and location. -/
theorem make_signer_ignores_extra_args (env : Env) (auth_type profile location : String)
    (args : List String) (kwargs : List (String × String)) :
    make_signer env auth_type profile location args kwargs =
      make_signer env auth_type profile location [] [] := rfl

/-- Whether a handler result is an escaping `KeyError` — the case
`create_signer`'s `except KeyError` intercepts. -/
def result_isKeyError : PyResult (Config × Signer) → Bool
  | (.error (.keyError _), _) => true
  | _ => false

/-- C2 counterexample: with a config section missing the `tenancy` key, the
Profile handler fails with `KeyError('tenancy')`, but `create_signer` does
not propagate that error unchanged — its `except KeyError` turns it into
`AuthException('Invalid authentication type')`. -/
theorem dispatcher_rewraps_handler_keyError :
    create_profile_signer envMissingTenancy "p" "l" =
      (.error (.keyError "tenancy"), [.fromFileCall "l" "p"]) ∧
    create_signer envMissingTenancy "p" "l" AUTH_PROFILE =
      (.error (.authExceptionStr "Invalid authentication type"), [.fromFileCall "l" "p"]) ∧
    (.keyError "tenancy" : Exc) ≠ .authExceptionStr "Invalid authentication type" :=
  ⟨rfl, rfl, by decide⟩

/-- C2 (amended): for every known strategy identifier, `create_signer`
returns the handler's result unchanged — success pair or error — unless the
handler's escaping exception is a `KeyError`, in which case the dispatcher's
`except KeyError` replaces it with `AuthException('Invalid authentication
type')` (the interaction trace is kept either way). -/
theorem create_signer_propagates_handler_result (env : Env)
    (profile location auth_type : String)
    (f : Env → String → String → PyResult (Config × Signer))
    (hf : signer_func auth_type = some f) :
    (result_isKeyError (f env profile location) = false →
      create_signer env profile location auth_type = f env profile location) ∧
    (result_isKeyError (f env profile location) = true →
      create_signer env profile location auth_type =
        (.error (.authExceptionStr "Invalid authentication type"),
          (f env profile location).2)) := by
  have key : create_signer env profile location auth_type =
      (match f env profile location with
        | (.error (.keyError _), evs) =>
          (.error (.authExceptionStr "Invalid authentication type"), evs)
        | r => r) := by
    unfold create_signer
    rw [hf]
  rcases hr : f env profile location with ⟨res, evs⟩
  rw [hr] at key
  rw [key]
  constructor
  · intro hk
    cases res with
    | ok v => rfl
    | error e =>
      cases e with
      | keyError k => simp [result_isKeyError] at hk
      | authExceptionStr m => rfl
      | authExceptionExc c => rfl
      | otherError m => rfl
  · intro hk
    cases res with
    | ok v => simp [result_isKeyError] at hk
    | error e =>
      cases e with
      | keyError k => rfl
      | authExceptionStr m => simp [result_isKeyError] at hk
      | authExceptionExc c => simp [result_isKeyError] at hk
      | otherError m => simp [result_isKeyError] at hk

/-- Witness for C2 (amended): the resource-principal handler's successful
result passes through `create_signer` unchanged in `envPrincipals`. -/
theorem create_signer_propagates_handler_result_witness :
    create_signer envPrincipals "p" "l" AUTH_RESOURCE_PRINCIPAL =
      (fun env _ _ => create_resource_principal env) envPrincipals "p" "l" :=
  (create_signer_propagates_handler_result envPrincipals "p" "l"
    AUTH_RESOURCE_PRINCIPAL (fun env _ _ => create_resource_principal env) rfl).1 rfl

/-- C3 counterexample: with both Cloud Shell environment variables unset,
`create_signer` for the DelegationToken strategy fails before any file
event, but the `AuthException` message is `"AuthException: Required
environment variables for delgation not found"` — the handler's own
`except Exception` re-wraps the message (adding the `AuthException: ` prefix)
and the source misspells "delegation" — not the message the claim states. -/
theorem delegation_env_error_message_differs :
    create_signer baseEnv "p" "l" AUTH_DELEGATION_TOKEN =
      (.error (.authExceptionStr
        "AuthException: Required environment variables for delgation not found"), []) ∧
    "AuthException: Required environment variables for delgation not found" ≠
      "Required environment variables for delegation not found" :=
  ⟨rfl, by decide⟩

/-- C3 (amended): for the DelegationToken strategy, if either required
environment variable is unset or empty, `create_signer` fails with an
`AuthException` whose message is `"AuthException: Required environment
variables for delgation not found"` (the in-handler `AuthException` is
caught by the same handler's `except Exception` and re-wrapped through
`str(e)`, and the source misspells "delegation"), with an empty interaction
trace: no file is opened. -/
theorem delegation_missing_env_fails_fast (env : Env) (profile location : String)
    (h : truthy (env.getenv "OCI_CONFIG_FILE") = false ∨
         truthy (env.getenv "OCI_CONFIG_PROFILE") = false) :
    create_signer env profile location AUTH_DELEGATION_TOKEN =
      (.error (.authExceptionStr
        "AuthException: Required environment variables for delgation not found"), []) := by
  rcases h with h | h <;>
    simp [create_signer, signer_func, create_delegation_token_signer, h,
      AUTH_PROFILE, AUTH_INSTANCE_PRINCIPAL, AUTH_DELEGATION_TOKEN,
      AUTH_WORKLOAD_PRINCIPAL, AUTH_RESOURCE_PRINCIPAL, Exc.toStr]

/-- Witness for C3 (amended) in `baseEnv`, where both variables are unset. -/
theorem delegation_missing_env_fails_fast_witness :
    create_signer baseEnv "DEFAULT" "~/.oci/config" AUTH_DELEGATION_TOKEN =
      (.error (.authExceptionStr
        "AuthException: Required environment variables for delgation not found"), []) :=
  delegation_missing_env_fails_fast baseEnv "DEFAULT" "~/.oci/config" (Or.inl rfl)

/-- Helper: dispatching the Profile strategy is the Profile handler guarded
by the dispatcher's `except KeyError` rewrap. -/
theorem create_signer_profile_eq (env : Env) (profile location : String) :
    create_signer env profile location AUTH_PROFILE =
      (match create_profile_signer env profile location with
        | (.error (.keyError _), evs) =>
          (.error (.authExceptionStr "Invalid authentication type"), evs)
        | r => r) := rfl

/-- Helper: dispatching the DelegationToken strategy is the delegation
handler guarded by the dispatcher's `except KeyError` rewrap. -/
theorem create_signer_delegation_eq (env : Env) (profile location : String) :
    create_signer env profile location AUTH_DELEGATION_TOKEN =
      (match create_delegation_token_signer env with
        | (.error (.keyError _), evs) =>
          (.error (.authExceptionStr "Invalid authentication type"), evs)
        | r => r) := rfl

/-- Helper: dispatching the ResourcePrincipal strategy is the
resource-principal handler guarded by the dispatcher's `except KeyError`
rewrap. -/
theorem create_signer_resource_eq (env : Env) (profile location : String) :
    create_signer env profile location AUTH_RESOURCE_PRINCIPAL =
      (match create_resource_principal env with
        | (.error (.keyError _), evs) =>
          (.error (.authExceptionStr "Invalid authentication type"), evs)
        | r => r) := rfl

/-- C4: for the Profile strategy, when parsing yields the section
`{tenancy: "t1", user: "u1", fingerprint: "f1", key_file: "/path/key.pem"}`
and signer construction succeeds, `create_signer` returns that section
verbatim as the ConfigMap, and the `Signer(...)` constructor is invoked with
exactly those fields (key-file location from `key_file`, no inline key
content, passphrase via `get_config_value_or_default`). -/
theorem profile_signer_verbatim_section (env : Env) (profile location : String)
    (s : Signer)
    (hf : env.fromFileResult location profile = .ok sectionC4)
    (hs : env.mkSignerResult (argsC4 env) = .ok s) :
    create_signer env profile location AUTH_PROFILE =
      (.ok (sectionC4, s),
        [.fromFileCall location profile, .mkSignerCall (argsC4 env)]) := by
  have hh : create_profile_signer env profile location =
      (.ok (sectionC4, s),
        [.fromFileCall location profile, .mkSignerCall (argsC4 env)]) := by
    unfold create_profile_signer
    rw [hf]
    simp only [argsC4, sectionC4] at hs
    simp [sectionC4, Config.get, argsC4, hs]
  rw [create_signer_profile_eq, hh]

/-- Witness for C4 in `envProfileOk`. -/
theorem profile_signer_verbatim_section_witness :
    create_signer envProfileOk "DEFAULT" "/cfg" AUTH_PROFILE =
      (.ok (sectionC4, signerD),
        [.fromFileCall "/cfg" "DEFAULT", .mkSignerCall (argsC4 envProfileOk)]) :=
  profile_signer_verbatim_section envProfileOk "DEFAULT" "/cfg" signerD rfl rfl

/-- C5 counterexample: a `from_file` parse failure in the Profile strategy
reaches the caller of `create_signer` as the provider's own exception, not
as an `AuthException` wrapping it — the Profile handler has no
`try/except` of its own. -/
theorem profile_parse_error_not_wrapped :
    create_signer baseEnv "p" "l" AUTH_PROFILE =
      (.error (.otherError "no file"), [.fromFileCall "l" "p"]) ∧
    Exc.isAuthException (.otherError "no file") = false := ⟨rfl, rfl⟩

/-- C5 (amended): the Profile handler performs no rewrapping at the handler
boundary (only three of the five strategies do). When it fails with
exception `e`, `create_signer` propagates `e` unchanged if `e` is not a
`KeyError`; a `KeyError` (e.g. a section missing a required field) is
replaced by the dispatcher's `AuthException('Invalid authentication
type')`. -/
theorem profile_failure_propagation (env : Env) (profile location : String)
    (e : Exc) (evs : List Event)
    (h : create_profile_signer env profile location = (.error e, evs)) :
    (e.isKeyError = false →
      create_signer env profile location AUTH_PROFILE = (.error e, evs)) ∧
    (e.isKeyError = true →
      create_signer env profile location AUTH_PROFILE =
        (.error (.authExceptionStr "Invalid authentication type"), evs)) := by
  rw [create_signer_profile_eq, h]
  constructor
  · intro hk
    cases e with
    | keyError k => simp [Exc.isKeyError] at hk
    | authExceptionStr m => rfl
    | authExceptionExc c => rfl
    | otherError m => rfl
  · intro hk
    cases e with
    | keyError k => rfl
    | authExceptionStr m => simp [Exc.isKeyError] at hk
    | authExceptionExc c => simp [Exc.isKeyError] at hk
    | otherError m => simp [Exc.isKeyError] at hk

/-- Witness for C5 (amended): in `baseEnv` the parse error `otherError "no
file"` reaches the caller unchanged. -/
theorem profile_failure_propagation_witness :
    create_signer baseEnv "p" "l" AUTH_PROFILE =
      (.error (.otherError "no file"), [.fromFileCall "l" "p"]) :=
  (profile_failure_propagation baseEnv "p" "l" (.otherError "no file")
    [.fromFileCall "l" "p"] rfl).1 rfl

/-- C6: for the DelegationToken strategy with both environment variables set
and non-empty, a config section naming a token file, and a token file whose
content is `"  abc123\n"`, the delegation-token signer is constructed with
the token exactly `"abc123"`: the file content is stripped of surrounding
whitespace before use. -/
theorem delegation_token_trimmed (env : Env) (profile location : String)
    (cf cs tokPath : String) (cfg : Config) (s : Signer)
    (h1 : env.getenv "OCI_CONFIG_FILE" = some cf) (hcf : cf ≠ "")
    (h2 : env.getenv "OCI_CONFIG_PROFILE" = some cs) (hcs : cs ≠ "")
    (h3 : env.fromFileResult cf cs = .ok cfg)
    (h4 : cfg.get "delegation_token_file" = some tokPath)
    (h5 : env.readFileResult tokPath = .ok "  abc123\n")
    (h6 : env.delegationTokenSigner "abc123" = .ok s) :
    create_signer env profile location AUTH_DELEGATION_TOKEN =
      (.ok (cfg, s),
        [.fromFileCall cf cs, .openFile tokPath, .delegationSignerCall "abc123"]) := by
  have hstrip : pyStrip "  abc123\n" = "abc123" := rfl
  rw [create_signer_delegation_eq]
  unfold create_delegation_token_signer
  rw [h1, h2]
  simp [truthy, hcf, hcs, h3, h4, h5, hstrip, h6]

/-- Witness for C6 in `envShell`. -/
theorem delegation_token_trimmed_witness :
    create_signer envShell "p" "l" AUTH_DELEGATION_TOKEN =
      (.ok (sectionShell, signerE),
        [.fromFileCall "/cfg" "SHELL", .openFile "/tok",
         .delegationSignerCall "abc123"]) :=
  delegation_token_trimmed envShell "p" "l" "/cfg" "SHELL" "/tok" sectionShell
    signerE rfl (by decide) rfl (by decide) rfl rfl rfl rfl

/-- C8 counterexample: a `KeyError` raised by the resource-principals
provider does NOT propagate un-wrapped: the dispatcher's `except KeyError`
replaces it with `AuthException('Invalid authentication type')`. -/
theorem resource_keyError_becomes_authError :
    create_resource_principal envResourceKeyError =
      (.error (.keyError "boom"), [.resourceCall]) ∧
    create_signer envResourceKeyError "p" "l" AUTH_RESOURCE_PRINCIPAL =
      (.error (.authExceptionStr "Invalid authentication type"), [.resourceCall]) ∧
    Exc.isAuthException (.authExceptionStr "Invalid authentication type") = true :=
  ⟨rfl, rfl, rfl⟩

/-- C8 (amended): for the ResourcePrincipal strategy, a provider error that
is not a `KeyError` propagates to the caller un-wrapped as the provider's
own exception (the handler has no `try/except`); a provider `KeyError` is
caught by the dispatcher's `except KeyError` and becomes
`AuthException('Invalid authentication type')`. -/
theorem resource_principal_error_propagation (env : Env)
    (profile location : String) (e : Exc)
    (h : env.resourceSigner = .error e) :
    (e.isKeyError = false →
      create_signer env profile location AUTH_RESOURCE_PRINCIPAL =
        (.error e, [.resourceCall])) ∧
    (e.isKeyError = true →
      create_signer env profile location AUTH_RESOURCE_PRINCIPAL =
        (.error (.authExceptionStr "Invalid authentication type"),
          [.resourceCall])) := by
  rw [create_signer_resource_eq]
  unfold create_resource_principal
  rw [h]
  constructor
  · intro hk
    cases e with
    | keyError k => simp [Exc.isKeyError] at hk
    | authExceptionStr m => rfl
    | authExceptionExc c => rfl
    | otherError m => rfl
  · intro hk
    cases e with
    | keyError k => rfl
    | authExceptionStr m => simp [Exc.isKeyError] at hk
    | authExceptionExc c => simp [Exc.isKeyError] at hk
    | otherError m => simp [Exc.isKeyError] at hk

/-- Witness for C8 (amended): the generic provider error of `baseEnv`
propagates un-wrapped. -/
theorem resource_principal_error_propagation_witness :
    create_signer baseEnv "p" "l" AUTH_RESOURCE_PRINCIPAL =
      (.error (.otherError "no rp"), [.resourceCall]) :=
  (resource_principal_error_propagation baseEnv "p" "l"
    (.otherError "no rp") rfl).1 rfl
